import Mathlib

/-!
Shallow embedding of the rhythmic-cloud-player UI sources:
* `src/src/pages/MovieDetail.tsx` — the detail / quality-selection surface
  (state fields, `fetchMovieData`, `handleVideoError`, `handleRefreshLink`,
  `handleQualitySelect`, the `[movieId]` effect and the refresh-button JSX);
* the unnamed `MusicPlayer` component — `formatTime`, `effectiveDuration`
  and the progress `Slider`'s `disabled` prop.

Event handlers are modelled as pure run-to-completion functions.  React
closure semantics are kept: within one handler invocation every read of a
state variable sees the value captured at the render that produced the
handler (`s0`), while `setX` calls accumulate into a pending state that is
the result.  Async results (`getMovieById`, the refresh POST, `player.play`)
are passed in explicitly.  Outbound calls are recorded as `Effect`s.
-/

/-- A `(label, playable-URL)` quality variant (`video_qualities` entries). -/
structure VideoQuality where
  quality : String
  url : String
deriving DecidableEq

/-- The content record fields the handlers consult (`Movie` from
`movieService`): identifier and quality-variant list. -/
structure Movie where
  id : String
  video_qualities : List VideoQuality
deriving DecidableEq

/-- Response of `POST /api/refresh-link/{id}` (`RefreshLinkResponse`). -/
structure RefreshLinkResponse where
  new_url : String
  message : String
deriving DecidableEq

/-- The component state of `MovieDetail`: `movieId` (route param) plus the
`useState` fields in declaration order. -/
structure SurfaceState where
  movieId : Option String
  movie : Option Movie
  isLoading : Bool
  error : Option String
  selectedQuality : Option String
  showPlayer : Bool
  isRefreshing : Bool
  playbackError : Bool
deriving DecidableEq

/-- Outbound calls a handler performs, in order. -/
inductive Effect where
  | fetchMovie (id : String) (forceRefresh : Bool)
  | refreshPost (id : String) (quality : String)
  | playerLoad (src : String)
  | playerPlay
deriving DecidableEq

/-- Recognise `getMovieById` effects. -/
def Effect.isFetch : Effect → Bool
  | .fetchMovie _ _ => true
  | _ => false

/-- JavaScript truthiness of a `string | null | undefined` value:
falsy iff absent or the empty string. -/
def jsTruthyStr : Option String → Bool
  | none => false
  | some s => s != ""

/-- Result of a `getMovieById` call: resolved value (`Movie | null`) or a
thrown error. -/
inductive FetchResult where
  | ok (data : Option Movie)
  | err
deriving DecidableEq

/-- Result of the `axios.post` refresh call: resolved response or a thrown
error (network failure or non-2xx status). -/
inductive PostResult where
  | ok (r : RefreshLinkResponse)
  | err
deriving DecidableEq

/-- `movie.video_qualities.find(q => q.quality === label)`. -/
def findQuality (qs : List VideoQuality) (label : String) : Option VideoQuality :=
  qs.find? (fun q => q.quality == label)

/-- `data.video_qualities[0]?.quality || 'Default'`. -/
def defaultQualityLabel (qs : List VideoQuality) : String :=
  match qs.head? with
  | none => "Default"
  | some q0 => if q0.quality == "" then "Default" else q0.quality

/-- `fetchMovieData(forceRefresh)` (MovieDetail.tsx lines 47-74).  `s0` is
the render closure the reads see; `p` carries the pending writes so far
(equal to `s0` when the handler is invoked directly by an effect). -/
def fetchMovieData (s0 p : SurfaceState) (forceRefresh : Bool)
    (result : FetchResult) : SurfaceState × List Effect :=
  match s0.movieId with
  | none => ({ p with error := some "Invalid movie ID", isLoading := false }, [])
  | some mid =>
    if mid == "" then
      ({ p with error := some "Invalid movie ID", isLoading := false }, [])
    else
      match result with
      | .ok (some data) =>
        let p1 := { p with movie := some data }
        let p2 :=
          if jsTruthyStr s0.selectedQuality then p1
          else { p1 with selectedQuality := some (defaultQualityLabel data.video_qualities) }
        ({ p2 with isLoading := false }, [.fetchMovie mid forceRefresh])
      | .ok none =>
        ({ p with error := some "Movie not found", isLoading := false },
          [.fetchMovie mid forceRefresh])
      | .err =>
        ({ p with error := some "Failed to load movie details", isLoading := false },
          [.fetchMovie mid forceRefresh])

/-- Body of `handleVideoError` (lines 84-89) applied to pending state `p`
with render-closure reads from `s0`; also reached from the `play()` catch in
`handleQualitySelect`. -/
def handleVideoErrorStep (s0 p : SurfaceState) : SurfaceState :=
  if s0.movie.isNone || !(jsTruthyStr s0.selectedQuality) || s0.isRefreshing then p
  else { p with playbackError := true }

/-- `handleVideoError` invoked directly by the player. -/
def handleVideoError (s0 : SurfaceState) : SurfaceState × List Effect :=
  (handleVideoErrorStep s0 s0, [])

/-- `handleRefreshLink` (lines 91-135).  `post` is the refresh POST outcome,
`refetch` the outcome of `getMovieById(movie.id, true)`, `playerLive`
whether `videoPlayerRef.current?.player` exists. -/
def handleRefreshLink (s0 : SurfaceState) (post : PostResult)
    (refetch : FetchResult) (playerLive : Bool) : SurfaceState × List Effect :=
  match s0.movie with
  | none => (s0, [])
  | some m =>
    if !(jsTruthyStr s0.selectedQuality) || s0.isRefreshing then (s0, [])
    else
      let sq := s0.selectedQuality.getD ""
      let p1 := { s0 with isRefreshing := true, playbackError := false }
      match post with
      | .err =>
        ({ p1 with playbackError := true, isRefreshing := false },
          [.refreshPost m.id sq])
      | .ok r =>
        if r.new_url == "" then
          ({ p1 with isRefreshing := false }, [.refreshPost m.id sq])
        else
          match refetch with
          | .err =>
            ({ p1 with playbackError := true, isRefreshing := false },
              [.refreshPost m.id sq, .fetchMovie m.id true])
          | .ok freshMovie =>
            let p2 := { p1 with movie := freshMovie, playbackError := false }
            match freshMovie.bind (fun fm => findQuality fm.video_qualities sq) with
            | some freshQualityData =>
              if playerLive then
                ({ p2 with isRefreshing := false },
                  [.refreshPost m.id sq, .fetchMovie m.id true,
                    .playerLoad freshQualityData.url, .playerPlay])
              else
                ({ p2 with isRefreshing := false },
                  [.refreshPost m.id sq, .fetchMovie m.id true])
            | none =>
              ({ p2 with isRefreshing := false },
                [.refreshPost m.id sq, .fetchMovie m.id true])

/-- `handleQualitySelect` (lines 147-168).  A failed `play()` invokes
`handleVideoError` from the catch, still with the `s0` closure. -/
def handleQualitySelect (s0 : SurfaceState) (quality : String)
    (fetchResult : FetchResult) (playerLive : Bool) (playOk : Bool) :
    SurfaceState × List Effect :=
  match s0.movie.bind (fun m => findQuality m.video_qualities quality) with
  | none => (s0, [])
  | some qualityData =>
    let p1 := { s0 with selectedQuality := some quality, playbackError := false }
    let fr := fetchMovieData s0 p1 true fetchResult
    if playerLive then
      let p2 := { fr.1 with showPlayer := true }
      let p3 := if playOk then p2 else handleVideoErrorStep s0 p2
      (p3, fr.2 ++ [.playerLoad qualityData.url, .playerPlay])
    else
      ({ fr.1 with showPlayer := true }, fr.2)

/-- The `useEffect` on `[movieId]` (lines 76-78): the re-render carries the
new identifier, then `fetchMovieData()` runs with the new closure. -/
def onMovieIdChange (s : SurfaceState) (newId : Option String)
    (result : FetchResult) : SurfaceState × List Effect :=
  let s1 := { s with movieId := newId }
  fetchMovieData s1 s1 false result

/-- The refresh button is rendered only when `playbackError` (line 280). -/
def refreshButtonVisible (s : SurfaceState) : Bool := s.playbackError

/-- The refresh button is `disabled={isRefreshing}` (line 284). -/
def refreshButtonDisabled (s : SurfaceState) : Bool := s.isRefreshing

/-- One user-gesture / lifecycle event of the detail surface, carrying the
outcomes of the async calls it performs. -/
inductive Event where
  | videoError : Event
  | refreshLink (post : PostResult) (refetch : FetchResult) (playerLive : Bool) : Event
  | qualitySelect (quality : String) (fetchResult : FetchResult)
      (playerLive : Bool) (playOk : Bool) : Event
  | idChange (newId : Option String) (result : FetchResult) : Event

/-- Dispatch one event handler to completion. -/
def stepEvent (s : SurfaceState) : Event → SurfaceState × List Effect
  | .videoError => handleVideoError s
  | .refreshLink post refetch playerLive => handleRefreshLink s post refetch playerLive
  | .qualitySelect quality fetchResult playerLive playOk =>
      handleQualitySelect s quality fetchResult playerLive playOk
  | .idChange newId result => onMovieIdChange s newId result

/-- The refreshing flag and playback-error flag are not both set. -/
def refreshingErrorInv (s : SurfaceState) : Prop :=
  s.isRefreshing = true → s.playbackError = false

/-! Concrete fixtures used by witnesses and counterexamples. -/

/-- A record with two qualities, as in the spec examples. -/
def mvOld : Movie := ⟨"m1", [⟨"720p", "a"⟩, ⟨"1080p", "b"⟩]⟩

/-- The force-refetched record: same qualities, renewed 1080p URL. -/
def mvFresh : Movie := ⟨"m1", [⟨"720p", "a"⟩, ⟨"1080p", "bNew"⟩]⟩

/-- A record with an empty quality list. -/
def mvEmpty : Movie := ⟨"m2", []⟩

/-- A record for a different identifier. -/
def mvOther : Movie := ⟨"m3", [⟨"480p", "c"⟩]⟩

/-- Steady state after the initial load of `mvOld`. -/
def readyState : SurfaceState :=
  ⟨some "m1", some mvOld, false, none, some "720p", false, false, false⟩

/-- State during an initial load, before any selection. -/
def freshLoadState : SurfaceState :=
  ⟨some "m2", none, true, none, none, false, false, false⟩

/-- State during an initial load of `mvOld`, before any selection. -/
def freshLoadState1 : SurfaceState :=
  ⟨some "m1", none, true, none, none, false, false, false⟩

/-- Ready state with the player open and a playback error pending. -/
def transientState : SurfaceState :=
  ⟨some "m1", some mvOld, false, none, some "720p", true, false, true⟩

/-- Ready state while a link refresh is in flight. -/
def refreshingState : SurfaceState :=
  ⟨some "m1", some mvOld, false, none, some "720p", false, true, false⟩

/-- Playback-error state with the 1080p variant selected. -/
def errorState1080 : SurfaceState :=
  ⟨some "m1", some mvOld, false, none, some "1080p", true, false, true⟩

/-!
MusicPlayer (the unnamed source file): `formatTime`, `effectiveDuration`
and the progress `Slider`'s `disabled` prop.
-/

/-- The `Track` fields the player arithmetic consults. -/
structure Track where
  duration : ℚ
deriving DecidableEq

/-- JavaScript `a || b` on (finite) numbers: `b` when `a` is `0`. -/
def jsOrQ (a b : ℚ) : ℚ := if a = 0 then b else a

/-- `duration > 0 ? duration : (currentTrack?.duration || 0)` (line 56);
an absent track makes the optional chain yield `undefined`, and
`undefined || 0` is `0`. -/
def effectiveDuration (duration : ℚ) (currentTrack : Option Track) : ℚ :=
  if 0 < duration then duration
  else
    match currentTrack with
    | none => 0
    | some t => jsOrQ t.duration 0

/-- The progress slider's `disabled={effectiveDuration === 0}` prop
(lines 96-103 and the desktop copy). -/
def progressSliderDisabled (duration : ℚ) (currentTrack : Option Track) : Bool :=
  decide (effectiveDuration duration currentTrack = 0)

/-- The claim's own formula for the effective duration: the playback-state
duration when positive, else the record's nominal duration when present,
else `0`.  Stated separately so the source definition can be compared with
it. -/
def claimEffectiveDuration (duration : ℚ) (currentTrack : Option Track) : ℚ :=
  if 0 < duration then duration
  else
    match currentTrack with
    | none => 0
    | some t => t.duration

/-- JavaScript numbers as far as `formatTime` needs them: `NaN`, the two
infinities, and finite values (exact at the integers the component feeds
in). -/
inductive JSNum where
  | nan : JSNum
  | inf : Bool → JSNum
  | fin : ℚ → JSNum
deriving DecidableEq

/-- JavaScript truthiness of a number: `NaN` and `0` are falsy. -/
def JSNum.truthy : JSNum → Bool
  | .nan => false
  | .inf _ => true
  | .fin q => q != 0

/-- `isNaN(x)`. -/
def JSNum.isNaN : JSNum → Bool
  | .nan => true
  | _ => false

/-- `x / 60` in JavaScript arithmetic. -/
def JSNum.div60 : JSNum → JSNum
  | .nan => .nan
  | .inf b => .inf b
  | .fin q => .fin (q / 60)

/-- Truncation towards zero, the rounding JavaScript `%` uses. -/
def ratTrunc (q : ℚ) : ℤ := if 0 ≤ q then ⌊q⌋ else ⌈q⌉

/-- `x % 60` in JavaScript: remainder with the dividend's sign; `NaN` on
non-finite input. -/
def JSNum.mod60 : JSNum → JSNum
  | .nan => .nan
  | .inf _ => .nan
  | .fin q => .fin (q - 60 * ratTrunc (q / 60))

/-- `Math.floor(x)`: identity on `NaN` and the infinities. -/
def JSNum.floorJS : JSNum → JSNum
  | .nan => .nan
  | .inf b => .inf b
  | .fin q => .fin (⌊q⌋ : ℚ)

/-- JavaScript `<` on numbers: every comparison with `NaN` is false. -/
def JSNum.lt : JSNum → JSNum → Bool
  | .nan, _ => false
  | _, .nan => false
  | .inf b1, .inf b2 => !b1 && b2
  | .inf b, .fin _ => !b
  | .fin _, .inf b => b
  | .fin a, .fin b => decide (a < b)

/-- Number-to-string conversion as template literals perform it, at the
values `formatTime` can produce (`NaN`, infinities, integers). -/
def JSNum.render : JSNum → String
  | .nan => "NaN"
  | .inf true => "Infinity"
  | .inf false => "-Infinity"
  | .fin q => if q.den = 1 then toString q.num else toString q.num ++ "/" ++ toString q.den

/-- `formatTime` (MusicPlayer lines 34-39):
`if (!seconds || isNaN(seconds)) return '0:00';` then
`${mins}:${secs < 10 ? '0' : ''}${secs}` with
`mins = Math.floor(seconds / 60)` and `secs = Math.floor(seconds % 60)`. -/
def formatTime (seconds : JSNum) : String :=
  if !seconds.truthy || seconds.isNaN then "0:00"
  else
    let mins := seconds.div60.floorJS
    let secs := seconds.mod60.floorJS
    mins.render ++ ":" ++ (if secs.lt (.fin 10) then "0" else "") ++ secs.render

/-! Helper lemmas evaluating `formatTime` on natural-number inputs. -/

theorem intFloor_natCast_div60 (n : ℕ) : ⌊(n : ℚ) / 60⌋ = ((n / 60 : ℕ) : ℤ) := by
  rw [show ((60 : ℚ)) = ((60 : ℕ) : ℚ) by norm_num,
    ← Int.natCast_floor_eq_floor (by positivity), Nat.floor_div_eq_div]

theorem ratTrunc_natCast_div60 (n : ℕ) : ratTrunc ((n : ℚ) / 60) = ((n / 60 : ℕ) : ℤ) := by
  rw [ratTrunc, if_pos (by positivity), intFloor_natCast_div60]

theorem natCast_mod60 (n : ℕ) :
    (n : ℚ) - 60 * (((n / 60 : ℕ) : ℤ) : ℚ) = ((n % 60 : ℕ) : ℚ) := by
  have h2 : ((60 * (n / 60) + n % 60 : ℕ) : ℚ) = (n : ℚ) :=
    congrArg (Nat.cast (R := ℚ)) (Nat.div_add_mod n 60)
  rw [Int.cast_natCast]
  push_cast at h2
  linarith

theorem render_fin_natCast (k : ℕ) : JSNum.render (.fin (((k : ℤ) : ℚ))) = toString k := by
  simp only [JSNum.render, Rat.den_intCast, Rat.num_intCast, if_pos rfl]
  rfl

theorem lt_fin_natCast_ten (k : ℕ) :
    JSNum.lt (.fin (((k : ℤ) : ℚ))) (.fin 10) = decide (k < 10) := by
  simp only [JSNum.lt, decide_eq_decide]
  exact_mod_cast Iff.rfl

/-- Evaluation of `formatTime` at a nonzero natural number of seconds. -/
theorem formatTime_natCast (n : ℕ) (hn : n ≠ 0) :
    formatTime (.fin n) =
      toString (n / 60) ++ ":" ++ (if n % 60 < 10 then "0" else "") ++ toString (n % 60) := by
  have htruthy : JSNum.truthy (.fin n) = true := by
    simp [JSNum.truthy, Nat.cast_ne_zero, hn]
  rw [formatTime, if_neg (by simp [htruthy, JSNum.isNaN])]
  simp only [JSNum.div60, JSNum.mod60, JSNum.floorJS, ratTrunc_natCast_div60,
    intFloor_natCast_div60, natCast_mod60, Int.floor_natCast, render_fin_natCast,
    lt_fin_natCast_ten, decide_eq_true_eq]

/-! Sanity checks of the embedding on concrete runs. -/

example : formatTime (.fin 65) = "1:05" := by
  rw [show (65 : ℚ) = ((65 : ℕ) : ℚ) by norm_num, formatTime_natCast 65 (by decide)]
  decide
example : formatTime (.fin 0) = "0:00" := by decide
example : formatTime .nan = "0:00" := by decide
example : formatTime (.inf true) = "Infinity:NaN" := by decide

example : (handleQualitySelect readyState "1080p" (.ok (some mvFresh)) true true).1.selectedQuality
    = some "1080p" := by decide

example : (handleRefreshLink transientState (.ok ⟨"x", "ok"⟩) (.ok (some mvFresh)) true).2
    = [.refreshPost "m1" "720p", .fetchMovie "m1" true, .playerLoad "a", .playerPlay] := by
  decide

/-! Helper lemmas about `fetchMovieData`. -/

theorem fetchMovieData_showPlayer (s0 p : SurfaceState) (f : Bool) (r : FetchResult) :
    (fetchMovieData s0 p f r).1.showPlayer = p.showPlayer := by
  unfold fetchMovieData
  repeat' split
  all_goals rfl

theorem fetchMovieData_isRefreshing (s0 p : SurfaceState) (f : Bool) (r : FetchResult) :
    (fetchMovieData s0 p f r).1.isRefreshing = p.isRefreshing := by
  unfold fetchMovieData
  repeat' split
  all_goals rfl

theorem fetchMovieData_playbackError (s0 p : SurfaceState) (f : Bool) (r : FetchResult) :
    (fetchMovieData s0 p f r).1.playbackError = p.playbackError := by
  unfold fetchMovieData
  repeat' split
  all_goals rfl

theorem fetchMovieData_selectedQuality_of_truthy (s0 p : SurfaceState) (f : Bool)
    (r : FetchResult) (h : jsTruthyStr s0.selectedQuality = true) :
    (fetchMovieData s0 p f r).1.selectedQuality = p.selectedQuality := by
  unfold fetchMovieData
  repeat' split
  all_goals simp_all

theorem fetchMovieData_effects (s0 p : SurfaceState) (f : Bool) (r : FetchResult) :
    ∀ e ∈ (fetchMovieData s0 p f r).2, ∃ mid, e = .fetchMovie mid f := by
  unfold fetchMovieData
  repeat' split
  all_goals simp_all

/-! Claim theorems. -/

/-- C8: for every live playback-state duration and record nominal duration,
`effectiveDuration` equals the playback-state duration when it is positive,
else the record's nominal duration when a record is present, else `0`; and
the progress slider is disabled exactly when the effective duration is `0`. -/
theorem C8_effective_duration_and_seek_disabled (d : ℚ) (t : Option Track) :
    effectiveDuration d t = claimEffectiveDuration d t ∧
    (progressSliderDisabled d t = true ↔ claimEffectiveDuration d t = 0) := by
  have h : effectiveDuration d t = claimEffectiveDuration d t := by
    cases t with
    | none => rfl
    | some tr =>
      by_cases hd : 0 < d
      · simp [effectiveDuration, claimEffectiveDuration, hd]
      · by_cases h0 : tr.duration = 0 <;>
          simp [effectiveDuration, claimEffectiveDuration, jsOrQ, hd, h0]
  refine ⟨h, ?_⟩
  simp [progressSliderDisabled, h]

/-- C9 counterexample: `Infinity` is a non-finite input, yet `formatTime`
renders it as `"Infinity:NaN"`, not `"0:00"` — the guard only catches falsy
values and `NaN`. -/
theorem C9_counterexample :
    formatTime (.inf true) = "Infinity:NaN" ∧ formatTime (.inf true) ≠ "0:00" := by
  decide

/-- C9 (amended): `formatTime` renders a nonzero finite natural-number input
as `M:SS` (no leading zero on minutes, zero-padded seconds), renders `NaN`,
`0` and missing input as `"0:00"`, and in particular maps `65` to `"1:05"`
and `599` to `"9:59"`; infinite inputs are not caught by the guard. -/
theorem C9_format_time (n : ℕ) (hn : n ≠ 0) :
    formatTime (.fin n) =
      toString (n / 60) ++ ":" ++ (if n % 60 < 10 then "0" else "") ++ toString (n % 60) ∧
    formatTime .nan = "0:00" ∧
    formatTime (.fin 0) = "0:00" ∧
    formatTime (.fin 65) = "1:05" ∧
    formatTime (.fin 599) = "9:59" := by
  refine ⟨formatTime_natCast n hn, by decide, by decide, ?_, ?_⟩
  · rw [show (65 : ℚ) = ((65 : ℕ) : ℚ) by norm_num, formatTime_natCast 65 (by decide)]
    decide
  · rw [show (599 : ℚ) = ((599 : ℕ) : ℚ) by norm_num, formatTime_natCast 599 (by decide)]
    decide

/-- C9 witness: the amended statement instantiated at `n = 65`. -/
theorem C9_format_time_witness :
    (65 : ℕ) ≠ 0 ∧
    (formatTime (.fin ((65 : ℕ) : ℚ)) =
        toString ((65 : ℕ) / 60) ++ ":" ++
          (if (65 : ℕ) % 60 < 10 then "0" else "") ++ toString ((65 : ℕ) % 60) ∧
      formatTime .nan = "0:00" ∧
      formatTime (.fin 0) = "0:00" ∧
      formatTime (.fin 65) = "1:05" ∧
      formatTime (.fin 599) = "9:59") :=
  ⟨by decide, C9_format_time 65 (by decide)⟩

/-- C6: selecting a quality label absent from the current record's quality
list leaves the whole surface state unchanged and issues no effect at all,
in particular no fetch. -/
theorem C6_absent_quality_noop (s : SurfaceState) (m : Movie) (quality : String)
    (fetchResult : FetchResult) (playerLive playOk : Bool)
    (hm : s.movie = some m)
    (habsent : findQuality m.video_qualities quality = none) :
    handleQualitySelect s quality fetchResult playerLive playOk = (s, []) := by
  simp [handleQualitySelect, hm, habsent]

/-- C6 witness: selecting the absent label `"4K"` in the ready state is a
no-op. -/
theorem C6_absent_quality_noop_witness :
    handleQualitySelect readyState "4K" (.ok (some mvFresh)) true true = (readyState, []) :=
  C6_absent_quality_noop readyState mvOld "4K" (.ok (some mvFresh)) true true rfl (by decide)

/-- C5: when the player reports a playback error in a steady state (record
present, quality selected, no refresh in flight), `playbackError` becomes
true, making the refresh button visible and enabled; and invoking the
refresh handler while a refresh is already in flight returns the state
unchanged and issues no request. -/
theorem C5_video_error_and_inflight_refresh_noop :
    (∀ s : SurfaceState, s.movie.isSome = true → jsTruthyStr s.selectedQuality = true →
        s.isRefreshing = false →
        (handleVideoError s).1.playbackError = true ∧
        refreshButtonVisible (handleVideoError s).1 = true ∧
        refreshButtonDisabled (handleVideoError s).1 = false) ∧
    (∀ (s : SurfaceState) (post : PostResult) (refetch : FetchResult) (playerLive : Bool),
        s.isRefreshing = true →
        handleRefreshLink s post refetch playerLive = (s, [])) := by
  constructor
  · intro s hm hq hr
    have hnone : s.movie.isNone = false := by
      cases h : s.movie <;> simp_all
    simp [handleVideoError, handleVideoErrorStep, hnone, hq, hr,
      refreshButtonVisible, refreshButtonDisabled]
  · intro s post refetch playerLive hr
    cases h : s.movie with
    | none => simp [handleRefreshLink, h]
    | some m => simp [handleRefreshLink, h, hr]

/-- C5 witness: the playback-error callback in the ready state, and a
refresh attempt while `refreshingState` is already refreshing. -/
theorem C5_video_error_and_inflight_refresh_noop_witness :
    ((handleVideoError readyState).1.playbackError = true ∧
      refreshButtonVisible (handleVideoError readyState).1 = true ∧
      refreshButtonDisabled (handleVideoError readyState).1 = false) ∧
    handleRefreshLink refreshingState .err .err true = (refreshingState, []) :=
  ⟨C5_video_error_and_inflight_refresh_noop.1 readyState (by decide) (by decide) (by decide),
    C5_video_error_and_inflight_refresh_noop.2 refreshingState .err .err true (by decide)⟩

/-- C1 counterexample: picking `"1080p"` after the fresh record renews that
variant's URL to `"bNew"` still loads the pre-refetch URL `"b"` into the
player — `handleQualitySelect` captures `qualityData` from the old record
before the force-refresh fetch. -/
theorem C1_counterexample :
    (findQuality mvFresh.video_qualities "1080p").map VideoQuality.url = some "bNew" ∧
    Effect.playerLoad "b" ∈ (handleQualitySelect readyState "1080p" (.ok (some mvFresh)) true true).2 ∧
    Effect.playerLoad "bNew" ∉ (handleQualitySelect readyState "1080p" (.ok (some mvFresh)) true true).2 := by
  decide

/-- C1 (amended): picking a quality label present in the current record,
with a quality already selected, sets `selectedQuality` to that label,
clears `playbackError`, issues exactly one force-refresh fetch, and, when a
live player handle exists, loads the pre-refetch record's source URL for
that quality (not the newly fetched record's URL), attempts playback, and
opens the player view. -/
theorem C1_quality_select (s : SurfaceState) (m fresh : Movie) (quality mid : String)
    (qd : VideoQuality)
    (hm : s.movie = some m)
    (hfind : findQuality m.video_qualities quality = some qd)
    (hsel : jsTruthyStr s.selectedQuality = true)
    (hid : s.movieId = some mid)
    (hmid : (mid == "") = false) :
    (handleQualitySelect s quality (.ok (some fresh)) true true).1.selectedQuality = some quality ∧
    (handleQualitySelect s quality (.ok (some fresh)) true true).1.playbackError = false ∧
    (handleQualitySelect s quality (.ok (some fresh)) true true).1.showPlayer = true ∧
    (handleQualitySelect s quality (.ok (some fresh)) true true).2
      = [.fetchMovie mid true, .playerLoad qd.url, .playerPlay] ∧
    ((handleQualitySelect s quality (.ok (some fresh)) true true).2).filter Effect.isFetch
      = [.fetchMovie mid true] := by
  simp [handleQualitySelect, fetchMovieData, hm, hfind, hsel, hid, hmid,
    List.filter, Effect.isFetch]

/-- C1 witness: picking `"1080p"` in the ready state. -/
theorem C1_quality_select_witness :
    (handleQualitySelect readyState "1080p" (.ok (some mvFresh)) true true).1.selectedQuality
      = some "1080p" ∧
    (handleQualitySelect readyState "1080p" (.ok (some mvFresh)) true true).1.playbackError = false ∧
    (handleQualitySelect readyState "1080p" (.ok (some mvFresh)) true true).1.showPlayer = true ∧
    (handleQualitySelect readyState "1080p" (.ok (some mvFresh)) true true).2
      = [.fetchMovie "m1" true, .playerLoad (VideoQuality.mk "1080p" "b").url, .playerPlay] ∧
    ((handleQualitySelect readyState "1080p" (.ok (some mvFresh)) true true).2).filter Effect.isFetch
      = [.fetchMovie "m1" true] :=
  C1_quality_select readyState mvOld mvFresh "1080p" "m1" ⟨"1080p", "b"⟩
    rfl (by decide) (by decide) rfl (by decide)

/-- C2 counterexample: the refresh endpoint succeeds with a `new_url`, the
force-refetch returns a record that lacks the selected quality `"720p"`,
and the surface ends with `playbackError = false` — the missing-quality case
is not surfaced as an error, contrary to the claim. -/
theorem C2_counterexample :
    findQuality mvOther.video_qualities "720p" = none ∧
    (handleRefreshLink transientState (.ok ⟨"x", "ok"⟩) (.ok (some mvOther)) true).1.playbackError
      = false ∧
    (handleRefreshLink transientState (.ok ⟨"x", "ok"⟩) (.ok (some mvOther)) true).1.isRefreshing
      = false := by
  decide

/-- C2 (amended): for every execution of the manual refresh operation,
failures that throw — a network error or non-2xx on the refresh endpoint, or
a failing force-refetch — set `playbackError`; but when the refresh succeeds
and the selected quality is merely missing from the refetched record,
`playbackError` stays cleared; the refreshing flag is cleared in a final
step regardless of outcome. -/
theorem C2_refresh_failure (s : SurfaceState) (m : Movie) (post : PostResult)
    (refetch : FetchResult) (playerLive : Bool)
    (hm : s.movie = some m)
    (hq : jsTruthyStr s.selectedQuality = true)
    (hr : s.isRefreshing = false) :
    (handleRefreshLink s post refetch playerLive).1.isRefreshing = false ∧
    (post = .err → (handleRefreshLink s post refetch playerLive).1.playbackError = true) ∧
    (∀ r, post = .ok r → (r.new_url == "") = false → refetch = .err →
      (handleRefreshLink s post refetch playerLive).1.playbackError = true) ∧
    (∀ r fm, post = .ok r → (r.new_url == "") = false → refetch = .ok fm →
      fm.bind (fun f => findQuality f.video_qualities (s.selectedQuality.getD "")) = none →
      (handleRefreshLink s post refetch playerLive).1.playbackError = false) := by
  cases post with
  | err => simp [handleRefreshLink, hm, hq, hr]
  | ok r =>
    by_cases hu : (r.new_url == "") = true
    · simp [handleRefreshLink, hm, hq, hr, hu]
      intro h
      exact absurd (by simpa using hu) h
    · cases refetch with
      | err => simp [handleRefreshLink, hm, hq, hr, hu]
      | ok fm =>
        cases hb : fm.bind (fun f => findQuality f.video_qualities (s.selectedQuality.getD "")) with
        | none => simp [handleRefreshLink, hm, hq, hr, hu, hb]
        | some qd => cases playerLive <;> simp [handleRefreshLink, hm, hq, hr, hu, hb]

/-- C2 witness: a failing refresh POST from the playback-error state. -/
theorem C2_refresh_failure_witness :
    (handleRefreshLink transientState .err .err true).1.isRefreshing = false ∧
    (PostResult.err = .err → (handleRefreshLink transientState .err .err true).1.playbackError = true) ∧
    (∀ r, PostResult.err = .ok r → (r.new_url == "") = false → FetchResult.err = .err →
      (handleRefreshLink transientState .err .err true).1.playbackError = true) ∧
    (∀ r fm, PostResult.err = .ok r → (r.new_url == "") = false → FetchResult.err = .ok fm →
      fm.bind (fun f => findQuality f.video_qualities (transientState.selectedQuality.getD "")) = none →
      (handleRefreshLink transientState .err .err true).1.playbackError = false) :=
  C2_refresh_failure transientState mvOld .err .err true rfl (by decide) (by decide)

/-- C3: when the refresh endpoint succeeds with a nonempty `new_url` and the
force-refetch returns a record containing the selected quality with a
changed URL, the handler loads exactly the fresh record's URL for that
quality into the live player, attempts playback, stores the fresh record,
and resets `playbackError` to false. -/
theorem C3_refresh_success (s : SurfaceState) (m fm : Movie) (sq : String)
    (r : RefreshLinkResponse) (qdOld qdNew : VideoQuality)
    (hm : s.movie = some m)
    (hsq : s.selectedQuality = some sq)
    (hsqne : (sq == "") = false)
    (hr : s.isRefreshing = false)
    (hurl : (r.new_url == "") = false)
    (hold : findQuality m.video_qualities sq = some qdOld)
    (hnew : findQuality fm.video_qualities sq = some qdNew)
    (hchanged : qdOld.url ≠ qdNew.url) :
    (handleRefreshLink s (.ok r) (.ok (some fm)) true).1.playbackError = false ∧
    (handleRefreshLink s (.ok r) (.ok (some fm)) true).1.movie = some fm ∧
    (handleRefreshLink s (.ok r) (.ok (some fm)) true).2
      = [.refreshPost m.id sq, .fetchMovie m.id true, .playerLoad qdNew.url, .playerPlay] := by
  have hq : jsTruthyStr (some sq) = true := by
    simp [jsTruthyStr, bne, hsqne]
  simp [handleRefreshLink, hm, hq, hr, hsq, hurl, hnew]

/-- C3 witness: refreshing the 1080p link succeeds end-to-end and loads the
renewed URL `"bNew"`. -/
theorem C3_refresh_success_witness :
    (handleRefreshLink errorState1080 (.ok ⟨"x", "ok"⟩) (.ok (some mvFresh)) true).1.playbackError
      = false ∧
    (handleRefreshLink errorState1080 (.ok ⟨"x", "ok"⟩) (.ok (some mvFresh)) true).1.movie
      = some mvFresh ∧
    (handleRefreshLink errorState1080 (.ok ⟨"x", "ok"⟩) (.ok (some mvFresh)) true).2
      = [.refreshPost mvOld.id "1080p", .fetchMovie mvOld.id true,
          .playerLoad (VideoQuality.mk "1080p" "bNew").url, .playerPlay] :=
  C3_refresh_success errorState1080 mvOld mvFresh "1080p" ⟨"x", "ok"⟩
    ⟨"1080p", "b"⟩ ⟨"1080p", "bNew"⟩ rfl rfl (by decide) (by decide) (by decide)
    (by decide) (by decide) (by decide)

/-- C4 counterexample: navigating from `"m1"` (player open, playback error
pending, `"720p"` selected) to `"m3"` leaves the selected label, the
player-visible flag and the playback-error flag all intact — the transient
state is not reset on identifier change. -/
theorem C4_counterexample :
    (onMovieIdChange transientState (some "m3") (.ok (some mvOther))).1.selectedQuality
      = some "720p" ∧
    (onMovieIdChange transientState (some "m3") (.ok (some mvOther))).1.showPlayer = true ∧
    (onMovieIdChange transientState (some "m3") (.ok (some mvOther))).1.playbackError = true := by
  decide

/-- C4 (amended): when the content identifier changes the surface only
re-runs a non-forced fetch; the player-visible, refreshing and
playback-error flags are preserved, and the selected-quality label is
preserved whenever one is selected (only an absent or empty selection is
replaced by the new record's default). -/
theorem C4_id_change_preserves_transient (s : SurfaceState) (newId : Option String)
    (result : FetchResult) :
    (onMovieIdChange s newId result).1.showPlayer = s.showPlayer ∧
    (onMovieIdChange s newId result).1.isRefreshing = s.isRefreshing ∧
    (onMovieIdChange s newId result).1.playbackError = s.playbackError ∧
    (jsTruthyStr s.selectedQuality = true →
      (onMovieIdChange s newId result).1.selectedQuality = s.selectedQuality) ∧
    (∀ id force, Effect.fetchMovie id force ∈ (onMovieIdChange s newId result).2 →
      force = false) := by
  refine ⟨?_, ?_, ?_, ?_, ?_⟩
  · exact fetchMovieData_showPlayer _ _ _ _
  · exact fetchMovieData_isRefreshing _ _ _ _
  · exact fetchMovieData_playbackError _ _ _ _
  · intro h
    exact fetchMovieData_selectedQuality_of_truthy _ _ _ _ h
  · intro id force hmem
    obtain ⟨mid, hmid⟩ := fetchMovieData_effects _ _ _ _ _ hmem
    cases hmid
    rfl

/-- C4 witness: the amended statement at the concrete navigation of the
counterexample. -/
theorem C4_id_change_preserves_transient_witness :
    (onMovieIdChange transientState (some "m3") (.ok (some mvOther))).1.showPlayer
      = transientState.showPlayer ∧
    (onMovieIdChange transientState (some "m3") (.ok (some mvOther))).1.isRefreshing
      = transientState.isRefreshing ∧
    (onMovieIdChange transientState (some "m3") (.ok (some mvOther))).1.playbackError
      = transientState.playbackError ∧
    (jsTruthyStr transientState.selectedQuality = true →
      (onMovieIdChange transientState (some "m3") (.ok (some mvOther))).1.selectedQuality
        = transientState.selectedQuality) ∧
    (∀ id force,
      Effect.fetchMovie id force ∈ (onMovieIdChange transientState (some "m3") (.ok (some mvOther))).2 →
      force = false) :=
  C4_id_change_preserves_transient transientState (some "m3") (.ok (some mvOther))

/-- C7 counterexample: a record whose quality list is empty has no first
entry, yet the fetch sets the selected quality to the fallback `"Default"` —
the claim's "label of the first entry" does not hold for it. -/
theorem C7_counterexample :
    mvEmpty.video_qualities.head? = none ∧
    (fetchMovieData freshLoadState freshLoadState false (.ok (some mvEmpty))).1.selectedQuality
      = some "Default" := by
  decide

/-- C7 (amended): after a successful fetch, a previously selected (nonempty)
quality is never overwritten; when none is selected the quality becomes the
first entry's label if the list is nonempty and that label is nonempty, and
the fallback `"Default"` otherwise; in particular a first load of a record
with qualities `720p, 1080p` selects `"720p"`. -/
theorem C7_default_quality (s : SurfaceState) (mid : String) (data : Movie)
    (hid : s.movieId = some mid) (hmid : (mid == "") = false) :
    (jsTruthyStr s.selectedQuality = true →
      (fetchMovieData s s false (.ok (some data))).1.selectedQuality = s.selectedQuality) ∧
    (jsTruthyStr s.selectedQuality = false →
      (fetchMovieData s s false (.ok (some data))).1.selectedQuality
        = some (defaultQualityLabel data.video_qualities)) ∧
    (∀ q0 rest, data.video_qualities = q0 :: rest → (q0.quality == "") = false →
      defaultQualityLabel data.video_qualities = q0.quality) ∧
    (fetchMovieData freshLoadState1 freshLoadState1 false (.ok (some mvOld))).1.selectedQuality
      = some "720p" := by
  refine ⟨?_, ?_, ?_, by decide⟩
  · intro h
    exact fetchMovieData_selectedQuality_of_truthy _ _ _ _ h
  · intro h
    simp [fetchMovieData, hid, hmid, h]
  · intro q0 rest hcons hne
    simp [defaultQualityLabel, hcons, hne]

/-- C7 witness: the amended statement at the first load of `mvOld`. -/
theorem C7_default_quality_witness :
    jsTruthyStr freshLoadState1.selectedQuality = false ∧
    (fetchMovieData freshLoadState1 freshLoadState1 false (.ok (some mvOld))).1.selectedQuality
      = some (defaultQualityLabel mvOld.video_qualities) :=
  ⟨by decide, (C7_default_quality freshLoadState1 "m1" mvOld rfl (by decide)).2.1 (by decide)⟩

/-! Helper lemmas for the refreshing/error exclusivity invariant. -/

theorem handleVideoErrorStep_isRefreshing (s0 p : SurfaceState) :
    (handleVideoErrorStep s0 p).isRefreshing = p.isRefreshing := by
  unfold handleVideoErrorStep
  split <;> rfl

theorem handleVideoErrorStep_of_refreshing (s0 p : SurfaceState)
    (h : s0.isRefreshing = true) : handleVideoErrorStep s0 p = p := by
  simp [handleVideoErrorStep, h]

theorem handleRefreshLink_state_cases (s : SurfaceState) (post : PostResult)
    (refetch : FetchResult) (playerLive : Bool) :
    handleRefreshLink s post refetch playerLive = (s, []) ∨
    (handleRefreshLink s post refetch playerLive).1.isRefreshing = false := by
  cases hmv : s.movie with
  | none => left; simp [handleRefreshLink, hmv]
  | some m =>
    by_cases hg : (!(jsTruthyStr s.selectedQuality) || s.isRefreshing) = true
    · left; simp [handleRefreshLink, hmv, hg]
    · right
      cases post with
      | err => simp [handleRefreshLink, hmv, hg]
      | ok r =>
        by_cases hu : (r.new_url == "") = true
        · simp [handleRefreshLink, hmv, hg, hu]
        · cases refetch with
          | err => simp [handleRefreshLink, hmv, hg, hu]
          | ok fm =>
            cases hb : fm.bind (fun f => findQuality f.video_qualities (s.selectedQuality.getD "")) with
            | none => simp [handleRefreshLink, hmv, hg, hu, hb]
            | some qd => cases playerLive <;> simp [handleRefreshLink, hmv, hg, hu, hb]

theorem handleQualitySelect_isRefreshing (s : SurfaceState) (q : String)
    (fr : FetchResult) (playerLive playOk : Bool) :
    (handleQualitySelect s q fr playerLive playOk).1.isRefreshing = s.isRefreshing := by
  cases hb : s.movie.bind (fun m => findQuality m.video_qualities q) with
  | none => simp [handleQualitySelect, hb]
  | some qd =>
    cases playerLive with
    | false => simp [handleQualitySelect, hb, fetchMovieData_isRefreshing]
    | true =>
      cases playOk with
      | true => simp [handleQualitySelect, hb, fetchMovieData_isRefreshing]
      | false =>
        simp [handleQualitySelect, hb, handleVideoErrorStep_isRefreshing,
          fetchMovieData_isRefreshing]

/-- C10: a playback-error callback arriving while a refresh is in flight
leaves the state unchanged (so `playbackError` stays false), and every
event handler of the surface preserves the invariant that the refreshing
flag and the playback-error flag are never both set on completion. -/
theorem C10_refreshing_error_exclusive :
    (∀ s : SurfaceState, s.isRefreshing = true → (handleVideoError s).1 = s) ∧
    (∀ (s : SurfaceState) (e : Event), refreshingErrorInv s →
      refreshingErrorInv (stepEvent s e).1) := by
  constructor
  · intro s hr
    simp [handleVideoError, handleVideoErrorStep_of_refreshing s s hr]
  · intro s e hinv
    cases e with
    | videoError =>
      intro hr
      rw [stepEvent, handleVideoError] at hr ⊢
      rw [handleVideoErrorStep_isRefreshing] at hr
      rw [handleVideoErrorStep_of_refreshing s s hr]
      exact hinv hr
    | refreshLink post refetch playerLive =>
      rcases handleRefreshLink_state_cases s post refetch playerLive with h | h
      · intro hr
        rw [stepEvent, h] at hr ⊢
        exact hinv hr
      · intro hr
        rw [stepEvent] at hr
        rw [h] at hr
        cases hr
    | qualitySelect quality fetchResult playerLive playOk =>
      intro hr
      rw [stepEvent] at hr ⊢
      rw [handleQualitySelect_isRefreshing] at hr
      cases hb : s.movie.bind (fun m => findQuality m.video_qualities quality) with
      | none => simp [handleQualitySelect, hb, hinv hr]
      | some qd =>
        cases playerLive with
        | false => simp [handleQualitySelect, hb, fetchMovieData_playbackError]
        | true =>
          cases playOk with
          | true => simp [handleQualitySelect, hb, fetchMovieData_playbackError]
          | false =>
            simp [handleQualitySelect, hb, handleVideoErrorStep, hr,
              fetchMovieData_playbackError]
    | idChange newId fetchResult =>
      intro hr
      rw [stepEvent, onMovieIdChange] at hr ⊢
      rw [fetchMovieData_isRefreshing] at hr
      rw [fetchMovieData_playbackError]
      exact hinv hr

/-- C10 witness: the in-flight no-op at `refreshingState` and invariant
preservation for the playback-error event at the ready state. -/
theorem C10_refreshing_error_exclusive_witness :
    (handleVideoError refreshingState).1 = refreshingState ∧
    refreshingErrorInv (stepEvent readyState .videoError).1 :=
  ⟨C10_refreshing_error_exclusive.1 refreshingState (by decide),
    C10_refreshing_error_exclusive.2 readyState .videoError
      (fun h => absurd h (by decide))⟩
